import Mathlib

set_option linter.dupNamespace false

/-!
Shallow embedding of `src/program/program.rs` (shader-program creation,
querying and teardown) together with proofs about the embedded code.

External collaborators (the raw GL binding table, the shader-compilation
module, the vertex-array-object cache, the reflection harvester and the
driver itself) are represented by an oracle structure `Gpu` of pure
functions, and every native call issued by the embedded code is recorded
in an explicit trace of `GlCall` events, so that ordering and
call-count properties become statements about that trace.  Rust panics
(`assert!`, `unreachable!`, `unwrap`) are modelled by the `Outcome.panicked`
constructor, recoverable `ProgramCreationError` results by `Outcome.err`.
-/

namespace Glium

/-- The graphics API of a context (from the external `version` module). -/
inductive Api
  | Gl
  | GlEs
deriving DecidableEq

/-- Numeric rank of an `Api`, used for the derived lexicographic ordering. -/
def Api.rank : Api → Nat
  | Api.Gl => 0
  | Api.GlEs => 1

/-- A context version, `Version(Api, major, minor)` in the source. -/
structure Version where
  api : Api
  major : Nat
  minor : Nat
deriving DecidableEq

/-- Modelled from the spec: the Context Accessor exposes the active graphics
API version; the source compares versions with the derived lexicographic
ordering on `(api, major, minor)` (the `version` module is outside this
file's source).  `a.ge b` is the embedding of the Rust `a >= b`. -/
def Version.ge (a b : Version) : Bool :=
  Nat.blt b.api.rank a.api.rank ||
    (a.api.rank == b.api.rank &&
      (Nat.blt b.major a.major || (a.major == b.major && Nat.ble b.minor a.minor)))

/-- The extension flags consulted by `program.rs` (Context Accessor). -/
structure Extensions where
  gl_ext_transform_feedback : Bool
  gl_arb_shader_objects : Bool
  gl_arb_get_programy_binary : Bool
deriving DecidableEq

/-- The dual-ABI resource handle: `Handle::Id` is the modern integer id,
`Handle.Handle` the legacy ARB object id. -/
inductive Handle
  | Id : Nat → Handle
  | Handle : Nat → Handle
deriving DecidableEq

/-- `ProgramCreationError` from the source, diagnostic text included. -/
inductive ProgramCreationError
  | CompilationError : String → ProgramCreationError
  | LinkingError : String → ProgramCreationError
  | ShaderTypeNotSupported
  | CompilationNotSupported
  | TransformFeedbackNotSupported
deriving DecidableEq

/-- `TransformFeedbackMode` from the reflection module. -/
inductive TransformFeedbackMode
  | Interleaved
  | Separate
deriving DecidableEq

/-- An opaque program binary: format tag plus byte blob. -/
structure Binary where
  format : Nat
  content : List Nat
deriving DecidableEq

/-- `ProgramCreationInput`: either full GLSL sources or an opaque binary. -/
inductive ProgramCreationInput
  | SourceCode
      (vertex_shader : String)
      (fragment_shader : String)
      (geometry_shader : Option String)
      (tessellation_control_shader : Option String)
      (tessellation_evaluation_shader : Option String)
      (transform_feedback_varyings : Option (List String × TransformFeedbackMode))
  | Binary (format : Nat) (content : List Nat)

namespace gl

def VERTEX_SHADER : Nat := 0x8B31

def FRAGMENT_SHADER : Nat := 0x8B30

def GEOMETRY_SHADER : Nat := 0x8DD9

def TESS_CONTROL_SHADER : Nat := 0x8E88

def TESS_EVALUATION_SHADER : Nat := 0x8E87

def NO_ERROR : Nat := 0

def INVALID_VALUE : Nat := 0x0501

def INVALID_OPERATION : Nat := 0x0502

def INTERLEAVED_ATTRIBS : Nat := 0x8C8C

def SEPARATE_ATTRIBS : Nat := 0x8C8D

def INTERLEAVED_ATTRIBS_EXT : Nat := 0x8C8C

def SEPARATE_ATTRIBS_EXT : Nat := 0x8C8D

end gl

/-- The mutable pieces of the current command context that `program.rs`
reads or writes: version, extension set, the debug-output reporting flag
(a `Cell<bool>`) and the currently bound program (`ctxt.state.program`). -/
structure CommandContext where
  version : Version
  extensions : Extensions
  report_debug_output_errors : Bool
  state_program : Handle
deriving DecidableEq

/-- One native call, as observed at the boundary between the embedded code
and its collaborators.  Ordering/count claims are statements about lists of
these events. -/
inductive GlCall
  | CompileShader (ty : Nat) (src : String)
  | CreateProgram
  | CreateProgramObjectARB
  | AttachShader (prog sh : Nat)
  | AttachObjectARB (prog sh : Nat)
  | TransformFeedbackVaryingsCall (prog : Nat) (count : Nat) (mode : Nat)
  | TransformFeedbackVaryingsEXT (prog : Nat) (count : Nat) (mode : Nat)
  | SetReportDebugOutputErrors (b : Bool)
  | LinkProgram (prog : Nat)
  | LinkProgramARB (prog : Nat)
  | GetLinkStatus (h : Handle)
  | GetError
  | GetInfoLogLength (h : Handle)
  | GetInfoLog (h : Handle) (bufLen : Int)
  | ProgramBinaryCall (prog : Nat) (format : Nat) (len : Nat)
  | GetProgramBinaryLength (h : Handle)
  | GetProgramBinary (h : Handle) (bufLen : Int)
  | GetFragDataLocation (prog : Nat) (name : String)
  | PurgeProgram (h : Handle)
  | UseProgram (raw : Nat)
  | UseProgramObjectARB (raw : Nat)
  | DeleteProgram (raw : Nat)
  | DeleteObjectARB (raw : Nat)
deriving DecidableEq

/-- Result of running a piece of the embedded code: a normal value, a
recoverable `ProgramCreationError`, or a Rust panic (`assert!`,
`unreachable!`, `unwrap` failure). -/
inductive Outcome (α : Type)
  | ok : α → Outcome α
  | err : ProgramCreationError → Outcome α
  | panicked : String → Outcome α
deriving DecidableEq

/-- The oracle standing for the driver and the external collaborators:
`build_shader` is the Shader Compilation module (black box per the spec),
the remaining fields are the answers the driver gives to the raw calls
issued by `program.rs`.  All fields are pure functions, so a given oracle
is a deterministic environment. -/
structure Gpu where
  build_shader : Nat → String → Except ProgramCreationError Handle
  createProgramRaw : Nat
  createProgramObjectRaw : Nat
  linkStatus : Handle → Int
  errorCode : Nat
  infoLogLength : Handle → Int
  infoLog : Handle → List Nat
  fragDataLoc : Nat → String → Int
  binaryLen : Handle → Int
  binaryFormat : Handle → Nat
  binaryContent : Handle → List Nat

/-- The `Program` entity, restricted to the fields the verified claims
touch; the reflection tables (uniforms, attributes, blocks, varyings) are
produced by the external Reflection Harvester and are not modelled. -/
structure Program where
  id : Handle
  frag_data_locations : List (String × Option Nat)
  has_tessellation_shaders : Bool
deriving DecidableEq

/-- The pair of inline `assert!`s that every handle-consuming operation in
`program.rs` performs: the modern variant requires version >= GL 2.0, the
legacy variant requires `gl_arb_shader_objects`. -/
def handleAssertOk (ctxt : CommandContext) (id : Handle) : Bool :=
  match id with
  | Handle.Id _ => ctxt.version.ge ⟨Api.Gl, 2, 0⟩
  | Handle.Handle _ => ctxt.extensions.gl_arb_shader_objects

/-- Modelled from the spec: `String::from_utf8` of the standard library
(external to this file); decoding either succeeds with the text or fails.
We embed the ASCII fragment of UTF-8, which realises both branches. -/
def string_from_utf8 (bytes : List Nat) : Option String :=
  if bytes.all (fun b => Nat.blt b 128) then
    some (String.mk (bytes.map (fun b => Char.ofNat b)))
  else none

/-- `create_program` (lines 567-582): pick the handle variant from the
capability profile, then treat a zero handle as a fatal panic. -/
def create_program (gpu : Gpu) (ctxt : CommandContext) : Outcome Handle × List GlCall :=
  let raw : Option Handle × List GlCall :=
    if ctxt.version.ge ⟨Api.Gl, 2, 0⟩ then
      (some (Handle.Id gpu.createProgramRaw), [GlCall.CreateProgram])
    else if ctxt.extensions.gl_arb_shader_objects then
      (some (Handle.Handle gpu.createProgramObjectRaw), [GlCall.CreateProgramObjectARB])
    else (none, [])
  match raw with
  | (none, tr) => (Outcome.panicked "internal error: entered unreachable code", tr)
  | (some id, tr) =>
    if id == Handle.Id 0 || id == Handle.Handle 0 then
      (Outcome.panicked "glCreateProgram failed", tr)
    else (Outcome.ok id, tr)

/-- `check_program_link_errors` (lines 584-656): read the link status;
on failure read the error queue once, then either surface the unexpected
error code or run the two-call size/fetch protocol on the info log and
decode it as UTF-8 (`unwrap` on the decode). -/
def check_program_link_errors (gpu : Gpu) (ctxt : CommandContext) (id : Handle) :
    Outcome Unit × List GlCall :=
  if !handleAssertOk ctxt id then
    (Outcome.panicked "assertion failed", [])
  else if gpu.linkStatus id == 0 then
    if gpu.errorCode == gl.NO_ERROR then
      match string_from_utf8 (gpu.infoLog id) with
      | some msg =>
        (Outcome.err (ProgramCreationError.LinkingError msg),
         [GlCall.GetLinkStatus id, GlCall.GetError, GlCall.GetInfoLogLength id,
          GlCall.GetInfoLog id (gpu.infoLogLength id)])
      | none =>
        (Outcome.panicked "called Result::unwrap on an Err value",
         [GlCall.GetLinkStatus id, GlCall.GetError, GlCall.GetInfoLogLength id,
          GlCall.GetInfoLog id (gpu.infoLogLength id)])
    else if gpu.errorCode == gl.INVALID_VALUE then
      (Outcome.err (ProgramCreationError.LinkingError
          "glLinkProgram triggered GL_INVALID_VALUE"),
       [GlCall.GetLinkStatus id, GlCall.GetError])
    else if gpu.errorCode == gl.INVALID_OPERATION then
      (Outcome.err (ProgramCreationError.LinkingError
          "glLinkProgram triggered GL_INVALID_OPERATION"),
       [GlCall.GetLinkStatus id, GlCall.GetError])
    else
      (Outcome.err (ProgramCreationError.LinkingError
          "glLinkProgram triggered an unknown error"),
       [GlCall.GetLinkStatus id, GlCall.GetError])
  else (Outcome.ok (), [GlCall.GetLinkStatus id])

/-- The ordered stage list built at lines 181-198: vertex and fragment
always, then geometry, tessellation-control, tessellation-evaluation when
present, in that order. -/
def stage_list (vs fs : String) (gs tcs tes : Option String) : List (String × Nat) :=
  [(vs, gl.VERTEX_SHADER), (fs, gl.FRAGMENT_SHADER)]
    ++ (match gs with | some g => [(g, gl.GEOMETRY_SHADER)] | none => [])
    ++ (match tcs with | some t => [(t, gl.TESS_CONTROL_SHADER)] | none => [])
    ++ (match tes with | some t => [(t, gl.TESS_EVALUATION_SHADER)] | none => [])

/-- The transform-feedback availability check exactly as written at lines
200-205 (the error is returned when this condition is true). -/
def tfvRejected (ctxt : CommandContext)
    (tfv : Option (List String × TransformFeedbackMode)) : Bool :=
  tfv.isSome &&
    (ctxt.version.ge ⟨Api.Gl, 3, 0⟩ || !ctxt.extensions.gl_ext_transform_feedback)

/-- The sequential `build_shader` loop at lines 210-216: compile each
stage in order, `try!` propagating the first failure. -/
def compile_shaders (gpu : Gpu) : List (String × Nat) → Outcome (List Handle) × List GlCall
  | [] => (Outcome.ok [], [])
  | (src, ty) :: rest =>
    match gpu.build_shader ty src with
    | Except.error e => (Outcome.err e, [GlCall.CompileShader ty src])
    | Except.ok h =>
      let r := compile_shaders gpu rest
      (match r.1 with
       | Outcome.ok hs => Outcome.ok (h :: hs)
       | Outcome.err e => Outcome.err e
       | Outcome.panicked s => Outcome.panicked s,
       GlCall.CompileShader ty src :: r.2)

/-- The shader-attachment loop at lines 229-241, with the per-variant
asserts and the mixed-variant `unreachable!`. -/
def attach_shaders (ctxt : CommandContext) (prog : Handle) :
    List Handle → Outcome Unit × List GlCall
  | [] => (Outcome.ok (), [])
  | sh :: rest =>
    match prog, sh with
    | Handle.Id pid, Handle.Id sid =>
      if !(ctxt.version.ge ⟨Api.Gl, 2, 0⟩) then (Outcome.panicked "assertion failed", [])
      else
        let r := attach_shaders ctxt prog rest
        (r.1, GlCall.AttachShader pid sid :: r.2)
    | Handle.Handle pid, Handle.Handle sid =>
      if !ctxt.extensions.gl_arb_shader_objects then (Outcome.panicked "assertion failed", [])
      else
        let r := attach_shaders ctxt prog rest
        (r.1, GlCall.AttachObjectARB pid sid :: r.2)
    | _, _ => (Outcome.panicked "internal error: entered unreachable code", [])

/-- The transform-feedback configuration block at lines 244-278: only the
modern handle variant is legal, the varying names go through
`CString::new(..).unwrap()`, and the call is dispatched on version
(modern) or extension (EXT), converting the mode to the native enumerant. -/
def configure_transform_feedback (ctxt : CommandContext) (id : Handle)
    (tfv : Option (List String × TransformFeedbackMode)) : Outcome Unit × List GlCall :=
  match tfv with
  | none => (Outcome.ok (), [])
  | some (names, mode) =>
    match id with
    | Handle.Handle _ => (Outcome.panicked "internal error: entered unreachable code", [])
    | Handle.Id raw =>
      if names.any (fun n => n.data.contains (Char.ofNat 0)) then
        (Outcome.panicked "called Result::unwrap on an Err value", [])
      else if ctxt.version.ge ⟨Api.Gl, 3, 0⟩ then
        (Outcome.ok (),
         [GlCall.TransformFeedbackVaryingsCall raw names.length
            (match mode with
             | TransformFeedbackMode.Interleaved => gl.INTERLEAVED_ATTRIBS
             | TransformFeedbackMode.Separate => gl.SEPARATE_ATTRIBS)])
      else if ctxt.extensions.gl_ext_transform_feedback then
        (Outcome.ok (),
         [GlCall.TransformFeedbackVaryingsEXT raw names.length
            (match mode with
             | TransformFeedbackMode.Interleaved => gl.INTERLEAVED_ATTRIBS_EXT
             | TransformFeedbackMode.Separate => gl.SEPARATE_ATTRIBS_EXT)])
      else (Outcome.panicked "internal error: entered unreachable code", [])

/-- The linking block at lines 281-298: clear the debug-output reporting
flag, issue the variant-matching link call (under the process-wide
compiler lock, irrelevant in this single-threaded model), then set the
flag to `true`. -/
def link_program_section (ctxt : CommandContext) (id : Handle) :
    Outcome Unit × CommandContext × List GlCall :=
  match id with
  | Handle.Id raw =>
    if !(ctxt.version.ge ⟨Api.Gl, 2, 0⟩) then
      (Outcome.panicked "assertion failed",
       { ctxt with report_debug_output_errors := false },
       [GlCall.SetReportDebugOutputErrors false])
    else
      (Outcome.ok (),
       { ctxt with report_debug_output_errors := true },
       [GlCall.SetReportDebugOutputErrors false, GlCall.LinkProgram raw,
        GlCall.SetReportDebugOutputErrors true])
  | Handle.Handle raw =>
    if !ctxt.extensions.gl_arb_shader_objects then
      (Outcome.panicked "assertion failed",
       { ctxt with report_debug_output_errors := false },
       [GlCall.SetReportDebugOutputErrors false])
    else
      (Outcome.ok (),
       { ctxt with report_debug_output_errors := true },
       [GlCall.SetReportDebugOutputErrors false, GlCall.LinkProgramARB raw,
        GlCall.SetReportDebugOutputErrors true])

/-- `Program::from_source_impl` (lines 157-327).  The reflection harvest
that follows a successful link is an external collaborator and issues no
calls modelled here; the returned `Program` carries the fields the claims
are about.  The function returns the outcome, the final command context
and the trace of native calls. -/
def from_source_impl (gpu : Gpu) (ctxt : CommandContext) (input : ProgramCreationInput) :
    Outcome Program × CommandContext × List GlCall :=
  match input with
  | ProgramCreationInput.Binary _ _ =>
    (Outcome.panicked "internal error: entered unreachable code", ctxt, [])
  | ProgramCreationInput.SourceCode vs fs gs tcs tes tfv =>
    if tfvRejected ctxt tfv then
      (Outcome.err ProgramCreationError.TransformFeedbackNotSupported, ctxt, [])
    else
      match compile_shaders gpu (stage_list vs fs gs tcs tes) with
      | (Outcome.err e, tr1) => (Outcome.err e, ctxt, tr1)
      | (Outcome.panicked s, tr1) => (Outcome.panicked s, ctxt, tr1)
      | (Outcome.ok shaders_ids, tr1) =>
        match create_program gpu ctxt with
        | (Outcome.err e, tr2) => (Outcome.err e, ctxt, tr1 ++ tr2)
        | (Outcome.panicked s, tr2) => (Outcome.panicked s, ctxt, tr1 ++ tr2)
        | (Outcome.ok id, tr2) =>
          match attach_shaders ctxt id shaders_ids with
          | (Outcome.err e, tr3) => (Outcome.err e, ctxt, tr1 ++ tr2 ++ tr3)
          | (Outcome.panicked s, tr3) => (Outcome.panicked s, ctxt, tr1 ++ tr2 ++ tr3)
          | (Outcome.ok _, tr3) =>
            match configure_transform_feedback ctxt id tfv with
            | (Outcome.err e, tr4) => (Outcome.err e, ctxt, tr1 ++ tr2 ++ tr3 ++ tr4)
            | (Outcome.panicked s, tr4) => (Outcome.panicked s, ctxt, tr1 ++ tr2 ++ tr3 ++ tr4)
            | (Outcome.ok _, tr4) =>
              match link_program_section ctxt id with
              | (Outcome.err e, ctxt2, tr5) =>
                (Outcome.err e, ctxt2, tr1 ++ tr2 ++ tr3 ++ tr4 ++ tr5)
              | (Outcome.panicked s, ctxt2, tr5) =>
                (Outcome.panicked s, ctxt2, tr1 ++ tr2 ++ tr3 ++ tr4 ++ tr5)
              | (Outcome.ok _, ctxt2, tr5) =>
                match check_program_link_errors gpu ctxt2 id with
                | (Outcome.err e, tr6) =>
                  (Outcome.err e, ctxt2, tr1 ++ tr2 ++ tr3 ++ tr4 ++ tr5 ++ tr6)
                | (Outcome.panicked s, tr6) =>
                  (Outcome.panicked s, ctxt2, tr1 ++ tr2 ++ tr3 ++ tr4 ++ tr5 ++ tr6)
                | (Outcome.ok _, tr6) =>
                  (Outcome.ok
                    { id := id
                      frag_data_locations := []
                      has_tessellation_shaders := tcs.isSome || tes.isSome },
                   ctxt2,
                   tr1 ++ tr2 ++ tr3 ++ tr4 ++ tr5 ++ tr6)

/-- `Program::from_binary_impl` (lines 333-381): create the program, submit
the blob (modern variant only), check link errors, and construct the
program with `has_tessellation_shaders` hard-wired to `true`. -/
def from_binary_impl (gpu : Gpu) (ctxt : CommandContext) (input : ProgramCreationInput) :
    Outcome Program × CommandContext × List GlCall :=
  match input with
  | ProgramCreationInput.SourceCode _ _ _ _ _ _ =>
    (Outcome.panicked "internal error: entered unreachable code", ctxt, [])
  | ProgramCreationInput.Binary fmt content =>
    match create_program gpu ctxt with
    | (Outcome.err e, tr1) => (Outcome.err e, ctxt, tr1)
    | (Outcome.panicked s, tr1) => (Outcome.panicked s, ctxt, tr1)
    | (Outcome.ok id, tr1) =>
      match id with
      | Handle.Handle _ =>
        (Outcome.panicked "internal error: entered unreachable code", ctxt, tr1)
      | Handle.Id raw =>
        if !(ctxt.version.ge ⟨Api.Gl, 2, 0⟩) then
          (Outcome.panicked "assertion failed", ctxt, tr1)
        else
          match check_program_link_errors gpu ctxt id with
          | (Outcome.err e, tr3) =>
            (Outcome.err e, ctxt, tr1 ++ [GlCall.ProgramBinaryCall raw fmt content.length] ++ tr3)
          | (Outcome.panicked s, tr3) =>
            (Outcome.panicked s, ctxt, tr1 ++ [GlCall.ProgramBinaryCall raw fmt content.length] ++ tr3)
          | (Outcome.ok _, tr3) =>
            (Outcome.ok
              { id := id
                frag_data_locations := []
                has_tessellation_shaders := true },
             ctxt,
             tr1 ++ [GlCall.ProgramBinaryCall raw fmt content.length] ++ tr3)

/-- `Program::get_binary_if_supported` (lines 400-430): modern-enough or
extension present yields the binary through the size-then-fetch protocol,
anything else yields `None`. -/
def get_binary_if_supported (gpu : Gpu) (ctxt : CommandContext) (p : Program) :
    Outcome (Option Binary) × List GlCall :=
  if ctxt.version.ge ⟨Api.Gl, 4, 1⟩ || ctxt.extensions.gl_arb_get_programy_binary then
    match p.id with
    | Handle.Handle _ => (Outcome.panicked "internal error: entered unreachable code", [])
    | Handle.Id _ =>
      (Outcome.ok (some { format := gpu.binaryFormat p.id, content := gpu.binaryContent p.id }),
       [GlCall.GetProgramBinaryLength p.id, GlCall.GetProgramBinary p.id (gpu.binaryLen p.id)])
  else (Outcome.ok none, [])

/-- `HashMap::insert` on the fragment-location cache, embedded on an
association list: the new entry shadows (replaces) any entry with the
same key and leaves every other entry alone. -/
def insertKV (k : String) (v : Option Nat) (m : List (String × Option Nat)) :
    List (String × Option Nat) :=
  (k, v) :: m.filter (fun kv => !(kv.1 == k))

/-- `Program::get_frag_data_location` (lines 443-475): cache-first lookup,
`CString::new(..).unwrap()` on a miss, live query only for the modern
variant (`-1` hard-wired for the legacy one), `-1`-sentinel
interpretation with an `as u32` cast, and a cache write of the
interpreted result.  Returns the result, the updated program and the
trace. -/
def get_frag_data_location (gpu : Gpu) (ctxt : CommandContext) (p : Program) (name : String) :
    Outcome (Option Nat) × Program × List GlCall :=
  match p.frag_data_locations.lookup name with
  | some result => (Outcome.ok result, p, [])
  | none =>
    if name.data.contains (Char.ofNat 0) then
      (Outcome.panicked "called Result::unwrap on an Err value", p, [])
    else
      match
        (match p.id with
         | Handle.Id raw =>
           if !(ctxt.version.ge ⟨Api.Gl, 2, 0⟩) then
             (Outcome.panicked "assertion failed", [])
           else (Outcome.ok (gpu.fragDataLoc raw name), [GlCall.GetFragDataLocation raw name])
         | Handle.Handle _ => ((Outcome.ok (-1 : Int) : Outcome Int), ([] : List GlCall)))
      with
      | (Outcome.panicked s, tr) => (Outcome.panicked s, p, tr)
      | (Outcome.err e, tr) => (Outcome.err e, p, tr)
      | (Outcome.ok value, tr) =>
        let location : Option Nat :=
          if value == -1 then none else some ((value % (2 : Int) ^ 32).toNat)
        (Outcome.ok location,
         { p with frag_data_locations := insertKV name location p.frag_data_locations },
         tr)

/-- `<Program as Drop>::drop` (lines 532-564): purge the vertex-array-object
cache, unbind if currently bound (resetting the tracked binding to the
null handle of the matching variant), then delete. -/
def Program.drop (p : Program) (ctxt : CommandContext) :
    Outcome CommandContext × List GlCall :=
  match p.id with
  | Handle.Id raw =>
    if !(ctxt.version.ge ⟨Api.Gl, 2, 0⟩) then
      (Outcome.panicked "assertion failed", [GlCall.PurgeProgram p.id])
    else if ctxt.state_program == Handle.Id raw then
      (Outcome.ok { ctxt with state_program := Handle.Id 0 },
       [GlCall.PurgeProgram p.id, GlCall.UseProgram 0, GlCall.DeleteProgram raw])
    else
      (Outcome.ok ctxt, [GlCall.PurgeProgram p.id, GlCall.DeleteProgram raw])
  | Handle.Handle raw =>
    if !ctxt.extensions.gl_arb_shader_objects then
      (Outcome.panicked "assertion failed", [GlCall.PurgeProgram p.id])
    else if ctxt.state_program == Handle.Handle raw then
      (Outcome.ok { ctxt with state_program := Handle.Handle 0 },
       [GlCall.PurgeProgram p.id, GlCall.UseProgramObjectARB 0, GlCall.DeleteObjectARB raw])
    else
      (Outcome.ok ctxt, [GlCall.PurgeProgram p.id, GlCall.DeleteObjectARB raw])

/-! Spec-side helper definitions used to state the claims. -/

/-- Whether a trace event is a shader-compilation request. -/
def isCompileEvent : GlCall → Bool
  | GlCall.CompileShader _ _ => true
  | _ => false

/-- The compilation requests of a trace, in order. -/
def compileEvents (tr : List GlCall) : List GlCall :=
  tr.filter isCompileEvent

/-- The stages the sequential compile loop attempts: every stage up to and
including the first one the compiler rejects. -/
def compiledStages (gpu : Gpu) : List (String × Nat) → List (String × Nat)
  | [] => []
  | (src, ty) :: rest =>
    match gpu.build_shader ty src with
    | Except.error _ => [(src, ty)]
    | Except.ok _ => (src, ty) :: compiledStages gpu rest

/-- The error of the first stage the compiler rejects, if any. -/
def firstCompileError (gpu : Gpu) : List (String × Nat) → Option ProgramCreationError
  | [] => none
  | (src, ty) :: rest =>
    match gpu.build_shader ty src with
    | Except.error e => some e
    | Except.ok _ => firstCompileError gpu rest

/-- The variant-matching link call for a handle. -/
def linkCallOf : Handle → GlCall
  | Handle.Id raw => GlCall.LinkProgram raw
  | Handle.Handle raw => GlCall.LinkProgramARB raw

/-- The variant-matching unbind (use-null-program) call for a handle. -/
def unbindCallOf : Handle → GlCall
  | Handle.Id _ => GlCall.UseProgram 0
  | Handle.Handle _ => GlCall.UseProgramObjectARB 0

/-- The variant-matching delete call for a handle. -/
def deleteCallOf : Handle → GlCall
  | Handle.Id raw => GlCall.DeleteProgram raw
  | Handle.Handle raw => GlCall.DeleteObjectARB raw

/-- The null program handle of the same variant as a handle. -/
def nullHandleOf : Handle → Handle
  | Handle.Id _ => Handle.Id 0
  | Handle.Handle _ => Handle.Handle 0

/-! Concrete fixtures used by the closed witness and counterexample
theorems.  `happyGpu` answers every request successfully. -/

/-- An oracle on which every operation succeeds. -/
def happyGpu : Gpu :=
  { build_shader := fun ty _ => Except.ok (Handle.Id (ty + 1))
    createProgramRaw := 5
    createProgramObjectRaw := 6
    linkStatus := fun _ => 1
    errorCode := 0
    infoLogLength := fun _ => 0
    infoLog := fun _ => []
    fragDataLoc := fun _ _ => 3
    binaryLen := fun _ => 2
    binaryFormat := fun _ => 7
    binaryContent := fun _ => [1, 2] }

/-- A fully capable modern (GL 4.5) context. -/
def modernCtxt : CommandContext :=
  { version := ⟨Api.Gl, 4, 5⟩
    extensions :=
      { gl_ext_transform_feedback := true
        gl_arb_shader_objects := true
        gl_arb_get_programy_binary := true }
    report_debug_output_errors := true
    state_program := Handle.Id 0 }

/-- The program the happy oracle yields for the witness builds. -/
def witnessProg : Program :=
  { id := Handle.Id 5, frag_data_locations := [], has_tessellation_shaders := true }

/-- A program with the legacy handle variant and an empty cache. -/
def legacyProg : Program :=
  { id := Handle.Handle 9, frag_data_locations := [], has_tessellation_shaders := false }

/-- The oracle that answers every fragment-data-location query with -2. -/
def negGpu : Gpu :=
  { happyGpu with fragDataLoc := fun _ _ => -2 }

/-- `witnessProg` after a first query for "color" on `happyGpu`. -/
def cachedProg : Program :=
  { id := Handle.Id 5, frag_data_locations := [("color", some 3)],
    has_tessellation_shaders := true }

/-- An oracle whose link fails and whose error queue holds 0x0503. -/
def failGpuA : Gpu :=
  { happyGpu with linkStatus := fun _ => 0, errorCode := 0x0503 }

/-- An oracle whose link fails and whose error queue holds 0x0505. -/
def failGpuB : Gpu :=
  { happyGpu with linkStatus := fun _ => 0, errorCode := 0x0505 }

/-- An oracle whose link fails with a clean error queue and an info log
whose bytes spell "bad link" (driver-reported length 9, nul included). -/
def failLogGpu : Gpu :=
  { happyGpu with
    linkStatus := fun _ => 0
    errorCode := 0
    infoLogLength := fun _ => 9
    infoLog := fun _ => [98, 97, 100, 32, 108, 105, 110, 107] }

/-- The modern context with the debug-output reporting flag initially
cleared. -/
def dimCtxt : CommandContext :=
  { modernCtxt with report_debug_output_errors := false }

/-- The program the happy oracle yields for builds with no tessellation
stage. -/
def plainProg : Program :=
  { id := Handle.Id 5, frag_data_locations := [], has_tessellation_shaders := false }

/-- An oracle whose compiler rejects exactly the fragment stage. -/
def failFragGpu : Gpu :=
  { happyGpu with
    build_shader := fun ty _ =>
      if ty == gl.FRAGMENT_SHADER then
        Except.error (ProgramCreationError.CompilationError "frag error")
      else Except.ok (Handle.Id (ty + 1)) }

/-- A legacy (GL 1.5, ARB-objects-only) context. -/
def legacyCtxt : CommandContext :=
  { version := ⟨Api.Gl, 1, 5⟩
    extensions :=
      { gl_ext_transform_feedback := false
        gl_arb_shader_objects := true
        gl_arb_get_programy_binary := false }
    report_debug_output_errors := true
    state_program := Handle.Handle 0 }

/-! Lemmas about the association-list embedding of the fragment-location
cache. -/

theorem lookup_filter_ne (k name : String) (m : List (String × Option Nat))
    (h : k ≠ name) :
    (m.filter (fun kv => !(kv.1 == name))).lookup k = m.lookup k := by
  induction m with
  | nil => rfl
  | cons hd tl ih =>
    obtain ⟨a, b⟩ := hd
    by_cases ha : a = name
    · subst ha
      have hak : (k == a) = false := beq_eq_false_iff_ne.mpr h
      simp [List.filter_cons, List.lookup, hak, ih]
    · have haf : (a == name) = false := beq_eq_false_iff_ne.mpr ha
      by_cases hk : k = a
      · subst hk
        simp [List.filter_cons, haf, List.lookup]
      · have hak : (k == a) = false := beq_eq_false_iff_ne.mpr hk
        simp [List.filter_cons, haf, List.lookup, hak, ih]

theorem lookup_insertKV_self (k : String) (v : Option Nat)
    (m : List (String × Option Nat)) :
    (insertKV k v m).lookup k = some v := by
  simp [insertKV, List.lookup]

theorem lookup_insertKV_ne (k name : String) (v : Option Nat)
    (m : List (String × Option Nat)) (h : k ≠ name) :
    (insertKV name v m).lookup k = m.lookup k := by
  have hnk : (k == name) = false := beq_eq_false_iff_ne.mpr h
  simp [insertKV, List.lookup, hnk, lookup_filter_ne k name m h]

/-- When the linking block succeeds, its trace is exactly clear-flag,
variant-matching link, set-flag-true, and the resulting context has the
reporting flag set to `true`. -/
theorem link_program_section_ok (ctxt : CommandContext) (id : Handle) (u : Unit)
    (ctxt2 : CommandContext) (tr : List GlCall)
    (h : link_program_section ctxt id = (Outcome.ok u, ctxt2, tr)) :
    tr = [GlCall.SetReportDebugOutputErrors false, linkCallOf id,
          GlCall.SetReportDebugOutputErrors true]
    ∧ ctxt2.report_debug_output_errors = true := by
  cases id with
  | Id raw =>
    simp only [link_program_section] at h
    split at h
    · simp at h
    · simp only [Prod.mk.injEq] at h
      obtain ⟨-, hc, ht⟩ := h
      subst hc
      exact ⟨ht.symm, rfl⟩
  | Handle raw =>
    simp only [link_program_section] at h
    split at h
    · simp at h
    · simp only [Prod.mk.injEq] at h
      obtain ⟨-, hc, ht⟩ := h
      subst hc
      exact ⟨ht.symm, rfl⟩

/-- When the per-variant assert holds, the linking block succeeds and its
full result is determined: clear-flag, link, set-flag-true, with the
resulting context's reporting flag `true`. -/
theorem link_program_section_of_assert (ctxt : CommandContext) (id : Handle)
    (h : handleAssertOk ctxt id = true) :
    link_program_section ctxt id
      = (Outcome.ok (), { ctxt with report_debug_output_errors := true },
         [GlCall.SetReportDebugOutputErrors false, linkCallOf id,
          GlCall.SetReportDebugOutputErrors true]) := by
  cases id with
  | Id raw =>
    have hv : ctxt.version.ge ⟨Api.Gl, 2, 0⟩ = true := by
      simpa [handleAssertOk] using h
    simp [link_program_section, linkCallOf, hv]
  | Handle raw =>
    have hv : ctxt.extensions.gl_arb_shader_objects = true := by
      simpa [handleAssertOk] using h
    simp [link_program_section, linkCallOf, hv]

/-! Lemmas about the compile loop and the compile events of each phase. -/

theorem compileEvents_append (a b : List GlCall) :
    compileEvents (a ++ b) = compileEvents a ++ compileEvents b :=
  List.filter_append a b

theorem compileEvents_map_compile (l : List (String × Nat)) :
    compileEvents (l.map (fun st => GlCall.CompileShader st.2 st.1))
      = l.map (fun st => GlCall.CompileShader st.2 st.1) := by
  refine List.filter_eq_self.mpr ?_
  intro a ha
  obtain ⟨st, -, rfl⟩ := List.mem_map.mp ha
  rfl

theorem compile_shaders_trace (gpu : Gpu) (l : List (String × Nat)) :
    (compile_shaders gpu l).2
      = (compiledStages gpu l).map (fun st => GlCall.CompileShader st.2 st.1) := by
  induction l with
  | nil => rfl
  | cons hd tl ih =>
    obtain ⟨src, ty⟩ := hd
    cases hbs : gpu.build_shader ty src with
    | error e => simp [compile_shaders, compiledStages, hbs]
    | ok h => simp [compile_shaders, compiledStages, hbs, ih]

theorem compiledStages_append_rest (gpu : Gpu) (l : List (String × Nat)) :
    ∃ t, l = compiledStages gpu l ++ t := by
  induction l with
  | nil => exact ⟨[], rfl⟩
  | cons hd tl ih =>
    obtain ⟨src, ty⟩ := hd
    cases hbs : gpu.build_shader ty src with
    | error e => exact ⟨tl, by simp [compiledStages, hbs]⟩
    | ok h =>
      obtain ⟨t, ht⟩ := ih
      refine ⟨t, ?_⟩
      simp only [compiledStages, hbs, List.cons_append]
      exact congrArg _ ht

theorem compile_shaders_err_of_first (gpu : Gpu) (l : List (String × Nat))
    (e : ProgramCreationError) (h : firstCompileError gpu l = some e) :
    (compile_shaders gpu l).1 = Outcome.err e := by
  induction l with
  | nil => simp [firstCompileError] at h
  | cons hd tl ih =>
    obtain ⟨src, ty⟩ := hd
    cases hbs : gpu.build_shader ty src with
    | error e2 =>
      simp only [firstCompileError, hbs, Option.some.injEq] at h
      subst h
      simp [compile_shaders, hbs]
    | ok hh =>
      simp only [firstCompileError, hbs] at h
      have h2 := ih h
      rcases hq : compile_shaders gpu tl with ⟨res, tr⟩
      rw [hq] at h2
      simp only at h2
      subst h2
      simp [compile_shaders, hbs, hq]

theorem compile_shaders_no_panic (gpu : Gpu) (l : List (String × Nat)) :
    ∀ s, (compile_shaders gpu l).1 ≠ Outcome.panicked s := by
  induction l with
  | nil => intro s; simp [compile_shaders]
  | cons hd tl ih =>
    obtain ⟨src, ty⟩ := hd
    intro s
    cases hbs : gpu.build_shader ty src with
    | error e => simp [compile_shaders, hbs]
    | ok h =>
      rcases hq : compile_shaders gpu tl with ⟨res, tr⟩
      have ih2 := ih
      simp only [hq] at ih2
      cases res with
      | ok hs => simp [compile_shaders, hbs, hq]
      | err e => simp [compile_shaders, hbs, hq]
      | panicked a =>
        have hcontra := ih2 a
        simp at hcontra

theorem create_program_no_compile (gpu : Gpu) (ctxt : CommandContext) :
    compileEvents (create_program gpu ctxt).2 = [] := by
  by_cases hv : ctxt.version.ge ⟨Api.Gl, 2, 0⟩ = true
  · simp [create_program, compileEvents, hv, apply_ite Prod.snd, isCompileEvent,
      List.filter_cons]
  · by_cases he : ctxt.extensions.gl_arb_shader_objects = true <;>
      simp [create_program, compileEvents, hv, he, apply_ite Prod.snd, isCompileEvent,
        List.filter_cons]

theorem attach_shaders_no_compile (ctxt : CommandContext) (prog : Handle)
    (l : List Handle) : compileEvents (attach_shaders ctxt prog l).2 = [] := by
  induction l with
  | nil => rfl
  | cons sh rest ih =>
    simp only [compileEvents] at ih ⊢
    cases prog <;> cases sh <;> simp only [attach_shaders] <;> try split
    all_goals simp [List.filter_cons, isCompileEvent, ih]

theorem configure_tf_no_compile (ctxt : CommandContext) (id : Handle)
    (tfv : Option (List String × TransformFeedbackMode)) :
    compileEvents (configure_transform_feedback ctxt id tfv).2 = [] := by
  simp only [configure_transform_feedback, compileEvents]
  repeat' split
  all_goals rfl

theorem link_section_no_compile (ctxt : CommandContext) (id : Handle) :
    compileEvents (link_program_section ctxt id).2.2 = [] := by
  simp only [link_program_section, compileEvents]
  repeat' split
  all_goals rfl

theorem check_link_no_compile (gpu : Gpu) (ctxt : CommandContext) (id : Handle) :
    compileEvents (check_program_link_errors gpu ctxt id).2 = [] := by
  simp only [check_program_link_errors, compileEvents]
  repeat' split
  all_goals rfl

/-! Claim theorems. -/

/-- C8: `create_program` never returns a null handle to its caller: a zero
raw id in either handle variant makes it panic ("glCreateProgram failed"),
and no branch of it ever produces a recoverable `ProgramCreationError`. -/
theorem c8_create_program_never_null (gpu : Gpu) (ctxt : CommandContext) :
    (∀ h, (create_program gpu ctxt).1 = Outcome.ok h →
        h ≠ Handle.Id 0 ∧ h ≠ Handle.Handle 0)
    ∧ (∀ e, (create_program gpu ctxt).1 ≠ Outcome.err e)
    ∧ (ctxt.version.ge ⟨Api.Gl, 2, 0⟩ = true → gpu.createProgramRaw = 0 →
        (create_program gpu ctxt).1 = Outcome.panicked "glCreateProgram failed")
    ∧ (ctxt.version.ge ⟨Api.Gl, 2, 0⟩ = false →
        ctxt.extensions.gl_arb_shader_objects = true → gpu.createProgramObjectRaw = 0 →
        (create_program gpu ctxt).1 = Outcome.panicked "glCreateProgram failed") := by
  unfold create_program
  by_cases hv : ctxt.version.ge ⟨Api.Gl, 2, 0⟩ = true
  · by_cases hr : gpu.createProgramRaw = 0 <;> simp_all [beq_iff_eq]
  · by_cases he : ctxt.extensions.gl_arb_shader_objects = true
    · by_cases hr : gpu.createProgramObjectRaw = 0 <;> simp_all [beq_iff_eq]
    · simp_all [beq_iff_eq]

/-- C8 witness: a modern context whose driver hands back raw id 0 makes
`create_program` panic rather than return. -/
theorem c8_create_program_never_null_witness :
    modernCtxt.version.ge ⟨Api.Gl, 2, 0⟩ = true
    ∧ ({ happyGpu with createProgramRaw := 0 } : Gpu).createProgramRaw = 0
    ∧ (create_program { happyGpu with createProgramRaw := 0 } modernCtxt).1
        = Outcome.panicked "glCreateProgram failed" :=
  ⟨by decide, rfl,
   (c8_create_program_never_null { happyGpu with createProgramRaw := 0 } modernCtxt).2.2.1
     (by decide) rfl⟩

/-- C7: `get_binary_if_supported` returns a binary only when the context is
at least GL 4.1 or has the program-binary extension, and in every other
case returns `None` without erroring or panicking. -/
theorem c7_get_binary_if_supported (gpu : Gpu) (ctxt : CommandContext) (p : Program) :
    (∀ b, (get_binary_if_supported gpu ctxt p).1 = Outcome.ok (some b) →
        (ctxt.version.ge ⟨Api.Gl, 4, 1⟩ || ctxt.extensions.gl_arb_get_programy_binary) = true)
    ∧ ((ctxt.version.ge ⟨Api.Gl, 4, 1⟩ || ctxt.extensions.gl_arb_get_programy_binary) = false →
        get_binary_if_supported gpu ctxt p = (Outcome.ok none, [])) := by
  unfold get_binary_if_supported
  by_cases hs : (ctxt.version.ge ⟨Api.Gl, 4, 1⟩ ||
      ctxt.extensions.gl_arb_get_programy_binary) = true
  · cases hid : p.id <;> simp [hs, hid]
  · simp only [Bool.not_eq_true] at hs
    simp [hs]

/-- C7 witness: on a legacy context with neither the version nor the
extension, the call returns `None` with no native call issued. -/
theorem c7_get_binary_if_supported_witness :
    (legacyCtxt.version.ge ⟨Api.Gl, 4, 1⟩ ||
        legacyCtxt.extensions.gl_arb_get_programy_binary) = false
    ∧ get_binary_if_supported happyGpu legacyCtxt
        { id := Handle.Handle 6, frag_data_locations := [], has_tessellation_shaders := false }
      = (Outcome.ok none, []) :=
  ⟨by decide,
   (c7_get_binary_if_supported happyGpu legacyCtxt
     { id := Handle.Handle 6, frag_data_locations := [], has_tessellation_shaders := false }).2
     (by decide)⟩

/-- C1 (code-bug evidence): on a fully modern GL 4.5 context with the
`gl_ext_transform_feedback` extension present, requesting varyings still
fails with `TransformFeedbackNotSupported`, and it does so before any
native call (empty trace).  The guard at lines 200-203 reads
`version >= 3.0 || !ext` where the spec (and the otherwise-dead modern
`TransformFeedbackVaryings` path at line 256) require
`!(version >= 3.0 || ext)`. -/
theorem c1_transform_feedback_check_inverted :
    (from_source_impl happyGpu modernCtxt
        (ProgramCreationInput.SourceCode "vs" "fs" none none none
          (some (["pos"], TransformFeedbackMode.Interleaved)))).1
      = Outcome.err ProgramCreationError.TransformFeedbackNotSupported
    ∧ (from_source_impl happyGpu modernCtxt
        (ProgramCreationInput.SourceCode "vs" "fs" none none none
          (some (["pos"], TransformFeedbackMode.Interleaved)))).2.2 = [] := by
  constructor <;> rfl

/-- C4: dropping a `Program` purges the vertex-array-object cache exactly
once with the program's own handle, then (only if the program is the
currently bound one) unbinds by switching to the null program of the
matching variant, then issues the variant-matching delete call; the purge
always strictly precedes the delete. -/
theorem c4_drop_order (p : Program) (ctxt : CommandContext)
    (h : handleAssertOk ctxt p.id = true) :
    (Program.drop p ctxt).2
      = [GlCall.PurgeProgram p.id]
        ++ (if ctxt.state_program == p.id then [unbindCallOf p.id] else [])
        ++ [deleteCallOf p.id]
    ∧ (Program.drop p ctxt).2.count (GlCall.PurgeProgram p.id) = 1
    ∧ (Program.drop p ctxt).1
      = Outcome.ok (if ctxt.state_program == p.id
          then { ctxt with state_program := nullHandleOf p.id } else ctxt) := by
  cases hid : p.id with
  | Id raw =>
    have hv : ctxt.version.ge ⟨Api.Gl, 2, 0⟩ = true := by
      simpa [handleAssertOk, hid] using h
    by_cases hb : ctxt.state_program = Handle.Id raw <;>
      simp [Program.drop, hid, hv, hb, unbindCallOf, deleteCallOf, nullHandleOf,
        List.count_cons, beq_iff_eq]
  | Handle raw =>
    have hv : ctxt.extensions.gl_arb_shader_objects = true := by
      simpa [handleAssertOk, hid] using h
    by_cases hb : ctxt.state_program = Handle.Handle raw <;>
      simp [Program.drop, hid, hv, hb, unbindCallOf, deleteCallOf, nullHandleOf,
        List.count_cons, beq_iff_eq]

/-- C4 witness: dropping the currently bound modern program 5 produces
exactly purge, unbind, delete, and resets the tracked binding. -/
theorem c4_drop_order_witness :
    handleAssertOk { modernCtxt with state_program := Handle.Id 5 }
        ({ id := Handle.Id 5, frag_data_locations := [],
           has_tessellation_shaders := false } : Program).id = true
    ∧ (Program.drop
        { id := Handle.Id 5, frag_data_locations := [], has_tessellation_shaders := false }
        { modernCtxt with state_program := Handle.Id 5 }).2
      = [GlCall.PurgeProgram (Handle.Id 5)]
        ++ (if ({ modernCtxt with state_program := Handle.Id 5 } :
              CommandContext).state_program == Handle.Id 5
            then [unbindCallOf (Handle.Id 5)] else [])
        ++ [deleteCallOf (Handle.Id 5)] :=
  ⟨by decide,
   (c4_drop_order
     { id := Handle.Id 5, frag_data_locations := [], has_tessellation_shaders := false }
     { modernCtxt with state_program := Handle.Id 5 } (by decide)).1⟩

/-- C5: every program the source path returns reports tessellation shaders
exactly when a tessellation-control or tessellation-evaluation source was
supplied, and every program the binary path returns reports them present
regardless of the blob; the two halves hold independently, each
conditioned only on its own path succeeding. -/
theorem c5_tessellation_flag (gpu : Gpu) (ctxt : CommandContext)
    (vs fs : String) (gs tcs tes : Option String)
    (tfv : Option (List String × TransformFeedbackMode))
    (fmt : Nat) (content : List Nat) :
    (∀ p, (from_source_impl gpu ctxt
          (ProgramCreationInput.SourceCode vs fs gs tcs tes tfv)).1 = Outcome.ok p →
        p.has_tessellation_shaders = (tcs.isSome || tes.isSome))
    ∧ (∀ q, (from_binary_impl gpu ctxt (ProgramCreationInput.Binary fmt content)).1
          = Outcome.ok q →
        q.has_tessellation_shaders = true) := by
  constructor
  · intro p hs
    simp only [from_source_impl] at hs
    split at hs
    · simp at hs
    · split at hs <;> try simp at hs
      split at hs <;> try simp at hs
      split at hs <;> try simp at hs
      split at hs <;> try simp at hs
      split at hs <;> try simp at hs
      split at hs <;> try simp at hs
      obtain rfl := hs.symm
      rfl
  · intro q hb
    simp only [from_binary_impl] at hb
    split at hb <;> try simp at hb
    split at hb <;> try simp at hb
    split at hb <;> try simp at hb
    split at hb <;> try simp at hb
    subst hb
    rfl

/-- C5 witness: a successful source build with only a tessellation-control
stage reports the flag true, matching `tcs.isSome || tes.isSome`; the
binary path on the same oracle reports it true as well. -/
theorem c5_tessellation_flag_witness :
    (from_source_impl happyGpu modernCtxt
        (ProgramCreationInput.SourceCode "vs" "fs" none (some "tc") none none)).1
      = Outcome.ok witnessProg
    ∧ (from_binary_impl happyGpu modernCtxt (ProgramCreationInput.Binary 7 [1, 2])).1
      = Outcome.ok witnessProg
    ∧ witnessProg.has_tessellation_shaders
        = ((some "tc").isSome || (none : Option String).isSome)
    ∧ witnessProg.has_tessellation_shaders = true :=
  ⟨by decide, by decide,
   (c5_tessellation_flag happyGpu modernCtxt "vs" "fs" none (some "tc") none none
     7 [1, 2]).1 witnessProg (by decide),
   (c5_tessellation_flag happyGpu modernCtxt "vs" "fs" none (some "tc") none none
     7 [1, 2]).2 witnessProg (by decide)⟩

/-- C6: when a `get_frag_data_location` call returns a value, an immediate
second call with the same name returns the same value, performs no live
query (its trace is empty) and leaves the program unchanged; moreover each
call is monotone on the cache: existing entries keep their value, other
keys are untouched, and after the call the queried name is cached with
exactly the returned result. -/
theorem c6_frag_data_location_idempotent (gpu : Gpu) (ctxt : CommandContext)
    (p : Program) (name : String) (r : Option Nat) (p1 : Program) (tr1 : List GlCall)
    (h1 : get_frag_data_location gpu ctxt p name = (Outcome.ok r, p1, tr1)) :
    get_frag_data_location gpu ctxt p1 name = (Outcome.ok r, p1, [])
    ∧ (∀ k v, p.frag_data_locations.lookup k = some v →
        p1.frag_data_locations.lookup k = some v)
    ∧ (∀ k, k ≠ name → p1.frag_data_locations.lookup k = p.frag_data_locations.lookup k)
    ∧ p1.frag_data_locations.lookup name = some r := by
  have key : p1.frag_data_locations.lookup name = some r
      ∧ (∀ k, k ≠ name →
          p1.frag_data_locations.lookup k = p.frag_data_locations.lookup k) := by
    simp only [get_frag_data_location] at h1
    split at h1
    next result heq =>
      simp only [Prod.mk.injEq, Outcome.ok.injEq] at h1
      obtain ⟨rfl, rfl, -⟩ := h1
      exact ⟨heq, fun k _ => rfl⟩
    next heq =>
      split at h1
      · simp at h1
      · split at h1
        · simp at h1
        · simp at h1
        · simp only [Prod.mk.injEq, Outcome.ok.injEq] at h1
          obtain ⟨rfl, rfl, -⟩ := h1
          exact ⟨lookup_insertKV_self _ _ _,
            fun k hk => lookup_insertKV_ne k name _ _ hk⟩
  have hmono : ∀ k v, p.frag_data_locations.lookup k = some v →
      p1.frag_data_locations.lookup k = some v := by
    intro k v hv
    by_cases hk : k = name
    · subst hk
      -- the first call was a cache hit, so it did not change the program
      simp only [get_frag_data_location, hv] at h1
      simp only [Prod.mk.injEq, Outcome.ok.injEq] at h1
      obtain ⟨rfl, rfl, -⟩ := h1
      exact hv
    · rw [key.2 k hk]
      exact hv
  refine ⟨?_, hmono, key.2, key.1⟩
  simp [get_frag_data_location, key.1]

/-- C6 witness: a first query for "color" on an empty cache issues one
live query and caches `some 3`; applying the theorem, the second query
returns the same value with an empty trace. -/
theorem c6_frag_data_location_idempotent_witness :
    get_frag_data_location happyGpu modernCtxt witnessProg "color"
      = (Outcome.ok (some 3), cachedProg, [GlCall.GetFragDataLocation 5 "color"])
    ∧ get_frag_data_location happyGpu modernCtxt cachedProg "color"
      = (Outcome.ok (some 3), cachedProg, []) :=
  ⟨by decide,
   (c6_frag_data_location_idempotent happyGpu modernCtxt witnessProg "color" (some 3)
     cachedProg [GlCall.GetFragDataLocation 5 "color"] (by decide)).1⟩

/-- C10 (amended): on a cache miss with a NUL-free name, the modern handle
variant issues the live query and interprets exactly the raw value -1 as
"not found"; every other raw value, other negative values included, is
cast to u32 (reduction mod 2^32) and returned as `some`; the legacy handle
variant uses the hard-wired raw value -1 and therefore always yields
"not found"; in every case the interpreted result is what gets written
into the cache. -/
theorem c10_sentinel_interpretation (gpu : Gpu) (ctxt : CommandContext)
    (p : Program) (name : String)
    (hmiss : p.frag_data_locations.lookup name = none)
    (hnul : name.data.contains (Char.ofNat 0) = false) :
    (∀ raw, p.id = Handle.Id raw → ctxt.version.ge ⟨Api.Gl, 2, 0⟩ = true →
        ((get_frag_data_location gpu ctxt p name).1 = Outcome.ok none
            ↔ gpu.fragDataLoc raw name = -1)
        ∧ (gpu.fragDataLoc raw name ≠ -1 →
            (get_frag_data_location gpu ctxt p name).1
              = Outcome.ok (some ((gpu.fragDataLoc raw name % (2 : Int) ^ 32).toNat)))
        ∧ (∃ res, (get_frag_data_location gpu ctxt p name).1 = Outcome.ok res
            ∧ (get_frag_data_location gpu ctxt p name).2.1.frag_data_locations.lookup name
              = some res))
    ∧ (∀ h, p.id = Handle.Handle h →
        (get_frag_data_location gpu ctxt p name).1 = Outcome.ok none
        ∧ (get_frag_data_location gpu ctxt p name).2.1.frag_data_locations.lookup name
          = some none) := by
  have hmem : Char.ofNat 0 ∉ name.data := by simpa using hnul
  constructor
  · intro raw hid hver
    have hred1 : (get_frag_data_location gpu ctxt p name).1
        = Outcome.ok (if gpu.fragDataLoc raw name == -1 then none
            else some ((gpu.fragDataLoc raw name % (2 : Int) ^ 32).toNat)) := by
      simp [get_frag_data_location, hmiss, hmem, hid, hver]
    have hred2 : (get_frag_data_location gpu ctxt p name).2.1.frag_data_locations
        = insertKV name (if gpu.fragDataLoc raw name == -1 then none
            else some ((gpu.fragDataLoc raw name % (2 : Int) ^ 32).toNat))
          p.frag_data_locations := by
      simp [get_frag_data_location, hmiss, hmem, hid, hver]
    refine ⟨?_, ?_, ?_⟩
    · rw [hred1]
      by_cases hv : gpu.fragDataLoc raw name = -1 <;> simp [hv, beq_iff_eq]
    · intro hv
      rw [hred1]
      have hb : (gpu.fragDataLoc raw name == -1) = false := beq_eq_false_iff_ne.mpr hv
      simp [hb]
    · refine ⟨_, hred1, ?_⟩
      rw [hred2]
      exact lookup_insertKV_self _ _ _
  · intro h hid
    have hred1 : (get_frag_data_location gpu ctxt p name).1 = Outcome.ok none := by
      simp [get_frag_data_location, hmiss, hmem, hid]
    have hred2 : (get_frag_data_location gpu ctxt p name).2.1.frag_data_locations
        = insertKV name none p.frag_data_locations := by
      simp [get_frag_data_location, hmiss, hmem, hid]
    exact ⟨hred1, by rw [hred2]; exact lookup_insertKV_self _ _ _⟩

/-- C10 counterexample (to the claim as stated): for the legacy handle
variant the raw value is -1, so the call returns "not found" (`none`) and
caches `none` — it is not cast to u32 and returned as `some`. -/
theorem c10_counterexample :
    (get_frag_data_location happyGpu legacyCtxt legacyProg "out0").1 = Outcome.ok none
    ∧ (get_frag_data_location happyGpu legacyCtxt legacyProg
        "out0").2.1.frag_data_locations.lookup "out0" = some none
    ∧ legacyProg.id = Handle.Handle 9 := by
  refine ⟨by decide, by decide, rfl⟩

/-- C10 witness: a raw query value of -2 (negative but distinct from -1)
is cast to u32: the call returns `some (2^32 - 2)`. -/
theorem c10_sentinel_interpretation_witness :
    witnessProg.frag_data_locations.lookup "color" = none
    ∧ "color".data.contains (Char.ofNat 0) = false
    ∧ witnessProg.id = Handle.Id 5
    ∧ modernCtxt.version.ge ⟨Api.Gl, 2, 0⟩ = true
    ∧ negGpu.fragDataLoc 5 "color" ≠ -1
    ∧ (get_frag_data_location negGpu modernCtxt witnessProg "color").1
        = Outcome.ok (some ((negGpu.fragDataLoc 5 "color" % (2 : Int) ^ 32).toNat))
    ∧ (negGpu.fragDataLoc 5 "color" % (2 : Int) ^ 32).toNat = 4294967294 :=
  ⟨rfl, by decide, rfl, by decide, by decide,
   ((c10_sentinel_interpretation negGpu modernCtxt witnessProg "color" rfl (by decide)).1
     5 rfl (by decide)).2.1 (by decide),
   by decide⟩

/-- C3 (amended): when the link status reads as success the checker
returns `Ok` having issued only the status read (no error-queue read, no
log fetch).  When it reads as failure the checker reads the error queue
exactly once; `GL_INVALID_VALUE` and `GL_INVALID_OPERATION` yield a
`LinkingError` whose text names that code, while any other non-`NO_ERROR`
code yields a `LinkingError` with the fixed text "glLinkProgram triggered
an unknown error" (which does not name the specific code); with a clean
error queue the checker queries the log length, allocates a buffer of
exactly that size (recorded as the fetch's buffer-length argument),
fetches the log and decodes it as UTF-8 — a decode failure panics (fatal,
not a returned error), a success yields `LinkingError` carrying the
decoded text. -/
theorem c3_link_error_extraction (gpu : Gpu) (ctxt : CommandContext) (id : Handle)
    (h : handleAssertOk ctxt id = true) :
    (gpu.linkStatus id ≠ 0 →
        check_program_link_errors gpu ctxt id = (Outcome.ok (), [GlCall.GetLinkStatus id]))
    ∧ (gpu.linkStatus id = 0 →
        (check_program_link_errors gpu ctxt id).2.count GlCall.GetError = 1
        ∧ (gpu.errorCode = gl.INVALID_VALUE →
            check_program_link_errors gpu ctxt id
              = (Outcome.err (ProgramCreationError.LinkingError
                  "glLinkProgram triggered GL_INVALID_VALUE"),
                 [GlCall.GetLinkStatus id, GlCall.GetError]))
        ∧ (gpu.errorCode = gl.INVALID_OPERATION →
            check_program_link_errors gpu ctxt id
              = (Outcome.err (ProgramCreationError.LinkingError
                  "glLinkProgram triggered GL_INVALID_OPERATION"),
                 [GlCall.GetLinkStatus id, GlCall.GetError]))
        ∧ (gpu.errorCode ≠ gl.NO_ERROR → gpu.errorCode ≠ gl.INVALID_VALUE →
            gpu.errorCode ≠ gl.INVALID_OPERATION →
            check_program_link_errors gpu ctxt id
              = (Outcome.err (ProgramCreationError.LinkingError
                  "glLinkProgram triggered an unknown error"),
                 [GlCall.GetLinkStatus id, GlCall.GetError]))
        ∧ (gpu.errorCode = gl.NO_ERROR →
            (check_program_link_errors gpu ctxt id).2
              = [GlCall.GetLinkStatus id, GlCall.GetError, GlCall.GetInfoLogLength id,
                 GlCall.GetInfoLog id (gpu.infoLogLength id)]
            ∧ (∀ s, string_from_utf8 (gpu.infoLog id) = some s →
                (check_program_link_errors gpu ctxt id).1
                  = Outcome.err (ProgramCreationError.LinkingError s))
            ∧ (string_from_utf8 (gpu.infoLog id) = none →
                (check_program_link_errors gpu ctxt id).1
                  = Outcome.panicked "called Result::unwrap on an Err value"))) := by
  have hassert : (!handleAssertOk ctxt id) = false := by simp [h]
  constructor
  · intro hls
    have hb : (gpu.linkStatus id == 0) = false := beq_eq_false_iff_ne.mpr hls
    simp [check_program_link_errors, hassert, hb]
  · intro hls
    have hb : (gpu.linkStatus id == 0) = true := beq_iff_eq.mpr hls
    by_cases h0 : gpu.errorCode = gl.NO_ERROR
    · have hb0 : (gpu.errorCode == gl.NO_ERROR) = true := beq_iff_eq.mpr h0
      refine ⟨?_, ?_, ?_, ?_, ?_⟩
      · rcases hdec : string_from_utf8 (gpu.infoLog id) with _ | s <;>
          simp [check_program_link_errors, hassert, hb, hb0, hdec, List.count_cons]
      · intro hIV
        rw [h0] at hIV
        exact absurd hIV (by decide)
      · intro hIO
        rw [h0] at hIO
        exact absurd hIO (by decide)
      · intro hne
        exact absurd h0 hne
      · intro _
        rcases hdec : string_from_utf8 (gpu.infoLog id) with _ | s <;>
          refine ⟨?_, ?_, ?_⟩ <;>
            simp [check_program_link_errors, hassert, hb, hb0, hdec]
    · have hb0 : (gpu.errorCode == gl.NO_ERROR) = false := beq_eq_false_iff_ne.mpr h0
      have h0n : gpu.errorCode ≠ 0 := h0
      by_cases hIV : gpu.errorCode = gl.INVALID_VALUE
      · have hbIV : (gpu.errorCode == gl.INVALID_VALUE) = true := beq_iff_eq.mpr hIV
        refine ⟨?_, ?_, ?_, ?_, ?_⟩ <;>
          simp [check_program_link_errors, hassert, hb, hb0, hbIV, hIV,
            List.count_cons, h0, gl.NO_ERROR, gl.INVALID_VALUE, gl.INVALID_OPERATION]
      · have hbIV : (gpu.errorCode == gl.INVALID_VALUE) = false :=
          beq_eq_false_iff_ne.mpr hIV
        have hIVn : gpu.errorCode ≠ 1281 := hIV
        by_cases hIO : gpu.errorCode = gl.INVALID_OPERATION
        · have hbIO : (gpu.errorCode == gl.INVALID_OPERATION) = true := beq_iff_eq.mpr hIO
          refine ⟨?_, ?_, ?_, ?_, ?_⟩ <;>
            simp [check_program_link_errors, hassert, hb, hb0, hbIV, hbIO, hIO, h0n, hIVn,
              List.count_cons, gl.NO_ERROR, gl.INVALID_VALUE, gl.INVALID_OPERATION]
        · have hbIO : (gpu.errorCode == gl.INVALID_OPERATION) = false :=
            beq_eq_false_iff_ne.mpr hIO
          have hIVn : gpu.errorCode ≠ 1281 := hIV
          have hIOn : gpu.errorCode ≠ 1282 := hIO
          refine ⟨?_, ?_, ?_, ?_, ?_⟩ <;>
            simp [check_program_link_errors, hassert, hb, hb0, hbIV, hbIO, h0n, hIVn, hIOn,
              List.count_cons, gl.NO_ERROR, gl.INVALID_VALUE, gl.INVALID_OPERATION]

/-- C3 counterexample (to the claim as stated): two different unexpected
error codes, 0x0503 and 0x0505 (neither `GL_INVALID_VALUE` nor
`GL_INVALID_OPERATION`), produce the identical fixed text, so the
returned `LinkingError` does not name the specific unexpected code. -/
theorem c3_counterexample :
    failGpuA.errorCode = 0x0503
    ∧ failGpuB.errorCode = 0x0505
    ∧ (check_program_link_errors failGpuA modernCtxt (Handle.Id 5)).1
        = Outcome.err (ProgramCreationError.LinkingError
            "glLinkProgram triggered an unknown error")
    ∧ (check_program_link_errors failGpuB modernCtxt (Handle.Id 5)).1
        = (check_program_link_errors failGpuA modernCtxt (Handle.Id 5)).1 :=
  ⟨rfl, rfl, by decide, by decide⟩

/-- C3 witness: a failed link with a clean error queue and the log bytes
of "bad link" yields `LinkingError "bad link"` through the size-then-fetch
protocol, with the buffer-length argument equal to the queried length. -/
theorem c3_link_error_extraction_witness :
    handleAssertOk modernCtxt (Handle.Id 5) = true
    ∧ failLogGpu.linkStatus (Handle.Id 5) = 0
    ∧ failLogGpu.errorCode = gl.NO_ERROR
    ∧ string_from_utf8 (failLogGpu.infoLog (Handle.Id 5)) = some "bad link"
    ∧ (check_program_link_errors failLogGpu modernCtxt (Handle.Id 5)).1
        = Outcome.err (ProgramCreationError.LinkingError "bad link")
    ∧ (check_program_link_errors failLogGpu modernCtxt (Handle.Id 5)).2
        = [GlCall.GetLinkStatus (Handle.Id 5), GlCall.GetError,
           GlCall.GetInfoLogLength (Handle.Id 5), GlCall.GetInfoLog (Handle.Id 5) 9] :=
  ⟨by decide, rfl, rfl, by decide,
   (((c3_link_error_extraction failLogGpu modernCtxt (Handle.Id 5) (by decide)).2
       rfl).2.2.2.2 rfl).2.1 "bad link" (by decide),
   (((c3_link_error_extraction failLogGpu modernCtxt (Handle.Id 5) (by decide)).2
       rfl).2.2.2.2 rfl).1⟩

/-- C9 (amended): on every source build that performs the link call —
i.e. the transform-feedback precheck passes, every stage compiles, the
empty program is created, attachment and transform-feedback configuration
succeed, and the handle matches the context's capability profile — the
trace contains, as three consecutive events, the clearing of the
debug-output reporting flag, the variant-matching link call, and the
setting of that flag to `true` (not to its prior value), and the final
context has the flag `true`, whatever the subsequent link-status check
returns; the prior value is therefore restored exactly when it was
`true`. -/
theorem c9_debug_flag_restoration (gpu : Gpu) (ctxt : CommandContext)
    (vs fs : String) (gs tcs tes : Option String)
    (tfv : Option (List String × TransformFeedbackMode))
    (ids : List Handle) (id : Handle)
    (hTF : tfvRejected ctxt tfv = false)
    (hc : (compile_shaders gpu (stage_list vs fs gs tcs tes)).1 = Outcome.ok ids)
    (hcp : (create_program gpu ctxt).1 = Outcome.ok id)
    (ha : (attach_shaders ctxt id ids).1 = Outcome.ok ())
    (hcf : (configure_transform_feedback ctxt id tfv).1 = Outcome.ok ())
    (hla : handleAssertOk ctxt id = true) :
    (∃ pre post,
        (from_source_impl gpu ctxt
            (ProgramCreationInput.SourceCode vs fs gs tcs tes tfv)).2.2
          = pre ++ [GlCall.SetReportDebugOutputErrors false, linkCallOf id,
                    GlCall.SetReportDebugOutputErrors true] ++ post)
    ∧ (from_source_impl gpu ctxt
        (ProgramCreationInput.SourceCode vs fs gs tcs tes
          tfv)).2.1.report_debug_output_errors = true := by
  have htf : ¬ tfvRejected ctxt tfv = true := by simp [hTF]
  rcases h1 : compile_shaders gpu (stage_list vs fs gs tcs tes) with ⟨res1, tr1⟩
  rw [h1] at hc
  simp only at hc
  subst hc
  rcases h2 : create_program gpu ctxt with ⟨res2, tr2⟩
  rw [h2] at hcp
  simp only at hcp
  subst hcp
  rcases h3 : attach_shaders ctxt id ids with ⟨res3, tr3⟩
  rw [h3] at ha
  simp only at ha
  subst ha
  rcases h4 : configure_transform_feedback ctxt id tfv with ⟨res4, tr4⟩
  rw [h4] at hcf
  simp only at hcf
  subst hcf
  have h5 := link_program_section_of_assert ctxt id hla
  rcases h6 : check_program_link_errors gpu
      { ctxt with report_debug_output_errors := true } id with ⟨res6, tr6⟩
  cases res6 <;>
    refine ⟨⟨tr1 ++ tr2 ++ tr3 ++ tr4, tr6, ?_⟩, ?_⟩ <;>
      simp [from_source_impl, htf, h1, h2, h3, h4, h5, h6, List.append_assoc]

/-- C9 counterexample (to the claim as stated): starting from a context
whose debug-output reporting flag is `false`, a successful build leaves
the flag `true` — the prior value is not restored. -/
theorem c9_counterexample :
    dimCtxt.report_debug_output_errors = false
    ∧ (from_source_impl happyGpu dimCtxt
        (ProgramCreationInput.SourceCode "vs" "fs" none none none
          none)).2.1.report_debug_output_errors = true
    ∧ (from_source_impl happyGpu dimCtxt
        (ProgramCreationInput.SourceCode "vs" "fs" none none none none)).1
      = Outcome.ok plainProg :=
  ⟨rfl, by decide, by decide⟩

/-- C9 witness: a concrete build on the happy oracle reaches the link
(all five pre-link hypotheses hold there); applying the amended theorem,
the final flag is `true`. -/
theorem c9_debug_flag_restoration_witness :
    (compile_shaders happyGpu (stage_list "vs" "fs" none none none)).1
      = Outcome.ok [Handle.Id 35634, Handle.Id 35633]
    ∧ (create_program happyGpu modernCtxt).1 = Outcome.ok (Handle.Id 5)
    ∧ handleAssertOk modernCtxt (Handle.Id 5) = true
    ∧ (from_source_impl happyGpu modernCtxt
        (ProgramCreationInput.SourceCode "vs" "fs" none none none
          none)).2.1.report_debug_output_errors = true :=
  ⟨by decide, by decide, by decide,
   (c9_debug_flag_restoration happyGpu modernCtxt "vs" "fs" none none none none
     [Handle.Id 35634, Handle.Id 35633] (Handle.Id 5)
     (by decide) (by decide) (by decide) (by decide) (by decide) (by decide)).2⟩

/-- C2: past the transform-feedback precheck, `from_source_impl` issues
compile requests for exactly the stages of the ordered list {vertex,
fragment, geometry?, tess-control?, tess-eval?} up to and including the
first failing one — the trace's compile events are exactly those stages in
that order, the attempted stages form a front segment of the stage list —
and the first compilation failure aborts the whole operation with that
stage's error as the result (no `Program` is constructed). -/
theorem c2_compile_order (gpu : Gpu) (ctxt : CommandContext) (vs fs : String)
    (gs tcs tes : Option String) (tfv : Option (List String × TransformFeedbackMode))
    (hTF : tfvRejected ctxt tfv = false) :
    compileEvents (from_source_impl gpu ctxt
        (ProgramCreationInput.SourceCode vs fs gs tcs tes tfv)).2.2
      = (compiledStages gpu (stage_list vs fs gs tcs tes)).map
          (fun st => GlCall.CompileShader st.2 st.1)
    ∧ (∃ t, stage_list vs fs gs tcs tes
        = compiledStages gpu (stage_list vs fs gs tcs tes) ++ t)
    ∧ (∀ e, firstCompileError gpu (stage_list vs fs gs tcs tes) = some e →
        (from_source_impl gpu ctxt
            (ProgramCreationInput.SourceCode vs fs gs tcs tes tfv)).1
          = Outcome.err e) := by
  have htf : ¬ tfvRejected ctxt tfv = true := by simp [hTF]
  refine ⟨?_, compiledStages_append_rest gpu _, ?_⟩
  · rcases h1 : compile_shaders gpu (stage_list vs fs gs tcs tes) with ⟨res1, tr1⟩
    have htr1 : compileEvents tr1
        = (compiledStages gpu (stage_list vs fs gs tcs tes)).map
            (fun st => GlCall.CompileShader st.2 st.1) := by
      have h := compile_shaders_trace gpu (stage_list vs fs gs tcs tes)
      rw [h1] at h
      simp only at h
      rw [h]
      exact compileEvents_map_compile _
    cases res1 with
    | err e => simp [from_source_impl, htf, h1, htr1]
    | panicked s =>
      have h := compile_shaders_no_panic gpu (stage_list vs fs gs tcs tes) s
      rw [h1] at h
      simp at h
    | ok ids =>
      rcases h2 : create_program gpu ctxt with ⟨res2, tr2⟩
      have e2 : compileEvents tr2 = [] := by
        have h := create_program_no_compile gpu ctxt
        rw [h2] at h
        exact h
      cases res2 with
      | err e =>
        simp [from_source_impl, htf, h1, h2, compileEvents_append, e2, htr1]
      | panicked s =>
        simp [from_source_impl, htf, h1, h2, compileEvents_append, e2, htr1]
      | ok id =>
        rcases h3 : attach_shaders ctxt id ids with ⟨res3, tr3⟩
        have e3 : compileEvents tr3 = [] := by
          have h := attach_shaders_no_compile ctxt id ids
          rw [h3] at h
          exact h
        cases res3 with
        | err e =>
          simp [from_source_impl, htf, h1, h2, h3, compileEvents_append, e2, e3, htr1]
        | panicked s =>
          simp [from_source_impl, htf, h1, h2, h3, compileEvents_append, e2, e3, htr1]
        | ok u3 =>
          rcases h4 : configure_transform_feedback ctxt id tfv with ⟨res4, tr4⟩
          have e4 : compileEvents tr4 = [] := by
            have h := configure_tf_no_compile ctxt id tfv
            rw [h4] at h
            exact h
          cases res4 with
          | err e =>
            simp [from_source_impl, htf, h1, h2, h3, h4, compileEvents_append,
              e2, e3, e4, htr1]
          | panicked s =>
            simp [from_source_impl, htf, h1, h2, h3, h4, compileEvents_append,
              e2, e3, e4, htr1]
          | ok u4 =>
            rcases h5 : link_program_section ctxt id with ⟨res5, ctxt2, tr5⟩
            have e5 : compileEvents tr5 = [] := by
              have h := link_section_no_compile ctxt id
              rw [h5] at h
              exact h
            cases res5 with
            | err e =>
              simp [from_source_impl, htf, h1, h2, h3, h4, h5, compileEvents_append,
                e2, e3, e4, e5, htr1]
            | panicked s =>
              simp [from_source_impl, htf, h1, h2, h3, h4, h5, compileEvents_append,
                e2, e3, e4, e5, htr1]
            | ok u5 =>
              rcases h6 : check_program_link_errors gpu ctxt2 id with ⟨res6, tr6⟩
              have e6 : compileEvents tr6 = [] := by
                have h := check_link_no_compile gpu ctxt2 id
                rw [h6] at h
                exact h
              cases res6 with
              | err e =>
                simp [from_source_impl, htf, h1, h2, h3, h4, h5, h6,
                  compileEvents_append, e2, e3, e4, e5, e6, htr1]
              | panicked s =>
                simp [from_source_impl, htf, h1, h2, h3, h4, h5, h6,
                  compileEvents_append, e2, e3, e4, e5, e6, htr1]
              | ok u6 =>
                simp [from_source_impl, htf, h1, h2, h3, h4, h5, h6,
                  compileEvents_append, e2, e3, e4, e5, e6, htr1]
  · intro e he
    have herr := compile_shaders_err_of_first gpu (stage_list vs fs gs tcs tes) e he
    rcases h1 : compile_shaders gpu (stage_list vs fs gs tcs tes) with ⟨res1, tr1⟩
    rw [h1] at herr
    simp only at herr
    subst herr
    simp [from_source_impl, htf, h1]

/-- C2 witness: with a compiler that rejects exactly the fragment stage,
a vertex+fragment+geometry request compiles vertex then fragment, never
reaches geometry, and fails with the fragment stage's error. -/
theorem c2_compile_order_witness :
    tfvRejected modernCtxt none = false
    ∧ compileEvents (from_source_impl failFragGpu modernCtxt
        (ProgramCreationInput.SourceCode "vs" "fs" (some "gs") none none none)).2.2
      = (compiledStages failFragGpu (stage_list "vs" "fs" (some "gs") none none)).map
          (fun st => GlCall.CompileShader st.2 st.1)
    ∧ (compiledStages failFragGpu (stage_list "vs" "fs" (some "gs") none none)).map
          (fun st => GlCall.CompileShader st.2 st.1)
      = [GlCall.CompileShader gl.VERTEX_SHADER "vs",
         GlCall.CompileShader gl.FRAGMENT_SHADER "fs"]
    ∧ firstCompileError failFragGpu (stage_list "vs" "fs" (some "gs") none none)
      = some (ProgramCreationError.CompilationError "frag error")
    ∧ (from_source_impl failFragGpu modernCtxt
        (ProgramCreationInput.SourceCode "vs" "fs" (some "gs") none none none)).1
      = Outcome.err (ProgramCreationError.CompilationError "frag error") :=
  ⟨by decide,
   (c2_compile_order failFragGpu modernCtxt "vs" "fs" (some "gs") none none none
     (by decide)).1,
   by decide,
   by decide,
   (c2_compile_order failFragGpu modernCtxt "vs" "fs" (some "gs") none none none
     (by decide)).2.2 (ProgramCreationError.CompilationError "frag error") (by decide)⟩

end Glium
